import Mathlib

/-!
Verification development for the communication-services-web-calling-hero
sample: a shallow embedding of the backend file-exchange routes
(Express server) and of the client-side state side effects
(sideEffects.ts), with theorems about the behaviours the design
document describes.
-/

namespace CallingHero

/-! ## Backend data model (server file-exchange service) -/

/-- File metadata stored in table storage: id, display name, upload
timestamp (epoch milliseconds, standing in for a JS Date). -/
structure FileMetadata where
  id : String
  name : String
  uploadDateTime : Nat
deriving DecidableEq, Repr

/-- Modelled from the spec: the durable cloud storage reached through
fileService.ts (which is not part of the sources): a blob container
mapping file id to bytes, a file-metadata table keyed by group, and a
user-details table of (group, user) membership entries.  Writes prepend
and reads take the most recent matching entry. -/
structure Storage where
  blobs : List (String × List Nat)
  fileMetadataTable : List (String × FileMetadata)
  userDetailsTable : List (String × String)
deriving DecidableEq, Repr

/-- Modelled from the spec: getUserDetails returns the user-detail
entries recorded for this (group, user) pair; membership checks test
whether this list is empty. -/
def getUserDetails (groupId userId : String) (st : Storage) :
    List (String × String) :=
  st.userDetailsTable.filter (fun p => p.1 == groupId && p.2 == userId)

/-- Modelled from the spec: getFilesForGroup returns the metadata rows
recorded for the group, in table order. -/
def getFilesForGroup (groupId : String) (st : Storage) : List FileMetadata :=
  (st.fileMetadataTable.filter (fun p => p.1 == groupId)).map (fun p => p.2)

/-- Modelled from the spec: getFileMetadata looks up the metadata row
for (group, file id); the source function throws a FileServiceError
when the row is absent, rendered here as none. -/
def getFileMetadata (groupId fileId : String) (st : Storage) :
    Option FileMetadata :=
  ((st.fileMetadataTable.filter
      (fun p => p.1 == groupId && p.2.id == fileId)).head?).map (fun p => p.2)

/-- Modelled from the spec: uploadFile writes the byte buffer to blob
storage under the given file id. -/
def uploadFile (fileId : String) (bytes : List Nat) (st : Storage) : Storage :=
  { st with blobs := (fileId, bytes) :: st.blobs }

/-- Modelled from the spec: downloadFile reads the blob stored under the
file id; a missing blob makes the underlying storage call reject, which
is rendered here as none. -/
def downloadFile (fileId : String) (st : Storage) : Option (List Nat) :=
  ((st.blobs.filter (fun p => p.1 == fileId)).head?).map (fun p => p.2)

/-- Modelled from the spec: addFileMetadata records a metadata row keyed
by group and id. -/
def addFileMetadata (groupId : String) (m : FileMetadata) (st : Storage) :
    Storage :=
  { st with fileMetadataTable := (groupId, m) :: st.fileMetadataTable }

/-- Modelled from the spec: addUserDetails registers a (group, user)
membership entry. -/
def addUserDetails (groupId userId : String) (st : Storage) : Storage :=
  { st with userDetailsTable := (groupId, userId) :: st.userDetailsTable }

/-! ## Base64 decoding (Buffer.from(image, base64)) -/

/-- Value of one base64 alphabet character; characters outside the
alphabet are ignored, as Node's lenient decoder does. -/
def base64CharVal (c : Char) : Option Nat :=
  if ('A' ≤ c ∧ c ≤ 'Z') then some (c.toNat - 65)
  else if ('a' ≤ c ∧ c ≤ 'z') then some (c.toNat - 97 + 26)
  else if ('0' ≤ c ∧ c ≤ '9') then some (c.toNat - 48 + 52)
  else if c = '+' then some 62
  else if c = '/' then some 63
  else none

/-- Reassemble bytes from a run of 6-bit groups. -/
def base64Assemble : List Nat → List Nat
  | a :: b :: c :: d :: rest =>
      (a * 4 + b / 16) :: ((b % 16) * 16 + c / 4) :: ((c % 4) * 64 + d)
        :: base64Assemble rest
  | [a, b] => [a * 4 + b / 16]
  | [a, b, c] => [a * 4 + b / 16, (b % 16) * 16 + c / 4]
  | _ => []

/-- Decode a base64 string to bytes, as Buffer.from(s, base64) does. -/
def base64Decode (s : String) : List Nat :=
  base64Assemble (s.data.filterMap base64CharVal)

/-! ## HTTP layer of the Express server -/

/-- Body of an HTTP response produced by the file routes. -/
inductive ResponseBody where
  | empty
  | text (s : String)
  | bytes (b : List Nat)
  | metadataList (l : List FileMetadata)
deriving DecidableEq, Repr

/-- An HTTP response: status code, body, and the attachment file name
set by res.attachment (the Content-Disposition filename), when any. -/
structure HttpResponse where
  status : Nat
  body : ResponseBody
  attachmentName : Option String := none
deriving DecidableEq, Repr

/-- Rendering of authValue.startsWith applied to the literal user, as
a prefix test on the character lists. -/
def startsWithUser (v : String) : Bool :=
  List.isPrefixOf ("user").data v.data

/-- The fakeAuthMiddleware of the server: a request passes when its
Authorization header is present, non-empty and starts with user; the
header value then becomes req.userId. -/
def fakeAuthMiddleware (authValue : Option String) : Option String :=
  match authValue with
  | none => none
  | some v => if startsWithUser v then some v else none

/-- Descending-by-upload-time ordering used by the list route:
laterOrSameUpload a b holds when a was uploaded no earlier than b. -/
def laterOrSameUpload (a b : FileMetadata) : Prop :=
  b.uploadDateTime ≤ a.uploadDateTime

instance : DecidableRel laterOrSameUpload :=
  fun a b => Nat.decLe b.uploadDateTime a.uploadDateTime

instance : IsTotal FileMetadata laterOrSameUpload :=
  ⟨fun a b => Nat.le_total b.uploadDateTime a.uploadDateTime⟩

instance : IsTrans FileMetadata laterOrSameUpload :=
  ⟨fun _ _ _ hab hbc => Nat.le_trans hbc hab⟩

/-- The files.sort comparator of the list route, b.uploadDateTime
minus a.uploadDateTime, sorts by upload time descending. -/
def sortFilesDesc (files : List FileMetadata) : List FileMetadata :=
  List.insertionSort laterOrSameUpload files

/-- GET /groups/:groupId/files handler: 403 when the caller has no
user-detail entry, otherwise 200 with the metadata rows sorted by
upload time descending.  The route writes nothing, so the storage is
returned unchanged. -/
def getFilesRoute (groupId userId : String) (st : Storage) :
    HttpResponse × Storage :=
  if (getUserDetails groupId userId st).length = 0 then
    ({ status := 403, body := .empty }, st)
  else
    ({ status := 200,
       body := .metadataList (sortFilesDesc (getFilesForGroup groupId st)) },
     st)

/-- GET /groups/:groupId/files/:fileId handler: 403 when the caller has
no user-detail entry; 404 when getFileMetadata throws FileServiceError
(metadata absent); otherwise the blob is streamed back with status 200
and res.attachment(file.name).  A missing blob makes downloadFile
reject with no catch around it, rendered as status 500. -/
def downloadFileRoute (groupId userId fileId : String) (st : Storage) :
    HttpResponse × Storage :=
  if (getUserDetails groupId userId st).length = 0 then
    ({ status := 403, body := .empty }, st)
  else
    match getFileMetadata groupId fileId st with
    | none => ({ status := 404, body := .empty }, st)
    | some file =>
      match downloadFile fileId st with
      | none => ({ status := 500, body := .empty }, st)
      | some bytes =>
        ({ status := 200, body := .bytes bytes,
           attachmentName := some file.name }, st)

/-- Request body of POST /groups/:groupId/files: an optional multipart
file buffer, an optional base64 image string, an optional file name. -/
structure UploadRequest where
  file : Option (List Nat)
  image : Option String
  fileName : Option String
deriving DecidableEq, Repr

/-- The bytes an upload request submits: the raw multipart buffer when
a file is present, otherwise the base64-decoded image body. -/
def submittedBytes (req : UploadRequest) : List Nat :=
  match req.file with
  | some buf => buf
  | none => base64Decode (req.image.getD (""))

/-- POST /groups/:groupId/files handler: 403 when the caller has no
user-detail entry; 400 when neither a multipart file nor an image is
present; 400 when no fileName is present; otherwise a fresh id
(newFileId, produced by uuidv4) names the blob written from the file
buffer or the decoded image, a metadata row (id, fileName, server
time) is added, and the response is 204.  The groupId parameter is a
string here, so the groupId-undefined 400 branch of the source cannot
fire. -/
def uploadFileRoute (groupId userId : String) (req : UploadRequest)
    (newFileId : String) (now : Nat) (st : Storage) :
    HttpResponse × Storage :=
  if (getUserDetails groupId userId st).length = 0 then
    ({ status := 403, body := .empty }, st)
  else if req.file.isNone && req.image.isNone then
    ({ status := 400, body := .text ("Invalid file/image") }, st)
  else if req.fileName.isNone then
    ({ status := 400, body := .text ("Invalid file name") }, st)
  else
    ({ status := 204, body := .empty },
     addFileMetadata groupId
       { id := newFileId, name := req.fileName.getD (""), uploadDateTime := now }
       (uploadFile newFileId (submittedBytes req) st))

/-- POST /groups/:groupId/user handler: registers the caller as a
member of the group and responds 204. -/
def addUserRoute (groupId userId : String) (st : Storage) :
    HttpResponse × Storage :=
  ({ status := 204, body := .empty }, addUserDetails groupId userId st)

/-! ## Client call-session synchronizer (callsUpdated handler) -/

/-- The part of an SDK Call object the callsUpdated handler reads: an
identifier and the isIncoming flag. -/
structure CallInfo where
  callId : Nat
  isIncoming : Bool
deriving DecidableEq, Repr

/-- Observable effects of processing one added call: a reject() on the
call, or dispatches into the store. -/
inductive CallSyncEffect where
  | rejectCall (c : CallInfo)
  | dispatchCallAdded (c : CallInfo)
  | dispatchSetParticipants (c : CallInfo)
  | dispatchSetCallState (c : CallInfo)
deriving DecidableEq, Repr

/-- The calls subtree of the store read by the handler.  Modelled from
the spec: the store tracks one active or pending Call; the callAdded
reducer (not part of the sources) records the dispatched call there. -/
structure CallsState where
  call : Option CallInfo
deriving DecidableEq, Repr

/-- Store state before any call is added. -/
def initCallsState : CallsState := { call := none }

/-- The calls currently tracked in store state. -/
def trackedCalls (s : CallsState) : List CallInfo := s.call.toList

/-- Body of the e.added.forEach of the callsUpdated handler in
initCallClient: when a call is already tracked and the added call is
incoming, reject it and return; otherwise dispatch callAdded, install
the per-call subscriptions, and seed participants and call state. -/
def onCallAdded (s : CallsState) (c : CallInfo) : CallsState × List CallSyncEffect :=
  if s.call.isSome && c.isIncoming then
    (s, [.rejectCall c])
  else
    ({ call := some c },
     [.dispatchCallAdded c, .dispatchSetParticipants c, .dispatchSetCallState c])

/-- Process a sequence of added calls, threading store state. -/
def runCallsAdded (s : CallsState) : List CallInfo → CallsState
  | [] => s
  | c :: cs => runCallsAdded (onCallAdded s c).1 cs

/-! ## Client mute / screen-share toggles -/

/-- The controls subtree of the store: microphone flag and screen-share
flag. -/
structure ControlsState where
  mic : Bool
  shareScreen : Bool
deriving DecidableEq, Repr

/-- Outcome of an awaited SDK action: the promise resolves or rejects. -/
inductive SdkResult where
  | resolves
  | rejects
deriving DecidableEq, Repr

/-- Observable events of a toggle thunk, in execution order: the SDK
action invoked, and any dispatch into the store. -/
inductive ToggleEvent where
  | sdkMute
  | sdkUnmute
  | sdkStartScreenSharing
  | sdkStopScreenSharing
  | dispatchSetMic (b : Bool)
  | dispatchSetShareScreen (b : Bool)
deriving DecidableEq, Repr

/-- What a toggle thunk reads from the store: whether state.calls.call
is defined, and the controls subtree. -/
structure ToggleContext where
  callActive : Bool
  controls : ControlsState
deriving DecidableEq, Repr

/-- The setMicrophone thunk: abort when no call is in state; otherwise
await mute or unmute on the call (chosen from the current mic flag) and
dispatch setMic only after it resolves; a rejection is caught and
logged, leaving the store unchanged.  The setMic reducer (not part of
the sources) is modelled from the spec as writing the flag. -/
def setMicrophone (mic : Bool) (sdk : SdkResult) (s : ToggleContext) :
    ControlsState × List ToggleEvent :=
  if !s.callActive then (s.controls, [])
  else
    let action := if !s.controls.mic then ToggleEvent.sdkUnmute else ToggleEvent.sdkMute
    match sdk with
    | .rejects => (s.controls, [action])
    | .resolves => ({ s.controls with mic := mic }, [action, .dispatchSetMic mic])

/-- The setShareUnshareScreen thunk: abort when no call is in state;
otherwise await startScreenSharing or stopScreenSharing and dispatch
setShareScreen only after it resolves; a rejection is caught and
logged, leaving the store unchanged. -/
def setShareUnshareScreen (shareScreen : Bool) (sdk : SdkResult) (s : ToggleContext) :
    ControlsState × List ToggleEvent :=
  if !s.callActive then (s.controls, [])
  else
    let action := if !s.controls.shareScreen then ToggleEvent.sdkStartScreenSharing
                  else ToggleEvent.sdkStopScreenSharing
    match sdk with
    | .rejects => (s.controls, [action])
    | .resolves =>
      ({ s.controls with shareScreen := shareScreen },
       [action, .dispatchSetShareScreen shareScreen])

/-! ## Client device-manager adapter -/

/-- A camera or microphone descriptor. -/
structure DeviceInfo where
  deviceId : Nat
deriving DecidableEq, Repr

/-- The devices subtree of the store read by the refresh paths. -/
structure DevicesState where
  audioDeviceInfo : Option DeviceInfo
  audioDeviceList : List DeviceInfo
  videoDeviceInfo : Option DeviceInfo
  videoDeviceList : List DeviceInfo
deriving DecidableEq, Repr

/-- Observable effects of a device refresh: dispatches of the new list
or selection, and direct deviceManager.setMicrophone calls.  Selection
payloads are optional because the video path can dispatch the first
element of an empty list, which is undefined. -/
inductive DeviceEffect where
  | dispatchSetAudioDeviceList (l : List DeviceInfo)
  | dispatchSetAudioDeviceInfo (d : Option DeviceInfo)
  | managerSetMicrophone (d : DeviceInfo)
  | dispatchSetVideoDeviceList (l : List DeviceInfo)
  | dispatchSetVideoDeviceInfo (d : Option DeviceInfo)
deriving DecidableEq, Repr

/-- Whether an effect is a selection dispatch for the microphone. -/
def isAudioInfoDispatch : DeviceEffect → Bool
  | .dispatchSetAudioDeviceInfo _ => true
  | _ => false

/-- Whether an effect is a selection dispatch for the camera. -/
def isVideoInfoDispatch : DeviceEffect → Bool
  | .dispatchSetVideoDeviceInfo _ => true
  | _ => false

/-- Modelled from the spec: utils.isSelectedAudioDeviceInList (Utils.ts
is not part of the sources) tests whether the selected device is still
present in the newly enumerated list. -/
def isSelectedAudioDeviceInList (d : DeviceInfo) (l : List DeviceInfo) : Bool :=
  decide (d ∈ l)

/-- Modelled from the spec: utils.isSelectedVideoDeviceInList tests
whether the selected camera is still present in the new list. -/
def isSelectedVideoDeviceInList (d : DeviceInfo) (l : List DeviceInfo) : Bool :=
  decide (d ∈ l)

/-- The updateAudioDevices refresh: dispatch the enumerated microphone
list; then, when nothing is selected and the list is non-empty, select
its first element (dispatch setAudioDeviceInfo and apply it to the
device manager); when the selected device is absent from the list,
re-apply that same device to the device manager without touching the
selection.  The device reducers (not part of the sources) are modelled
from the spec as writing the dispatched values. -/
def updateAudioDevices (microphoneList : List DeviceInfo) (s : DevicesState) :
    DevicesState × List DeviceEffect :=
  match s.audioDeviceInfo, microphoneList with
  | none, d :: rest =>
    ({ s with audioDeviceList := d :: rest, audioDeviceInfo := some d },
     [.dispatchSetAudioDeviceList (d :: rest),
      .dispatchSetAudioDeviceInfo (some d),
      .managerSetMicrophone d])
  | none, [] =>
    ({ s with audioDeviceList := [] }, [.dispatchSetAudioDeviceList []])
  | some d, _ =>
    if isSelectedAudioDeviceInList d microphoneList then
      ({ s with audioDeviceList := microphoneList },
       [.dispatchSetAudioDeviceList microphoneList])
    else
      ({ s with audioDeviceList := microphoneList },
       [.dispatchSetAudioDeviceList microphoneList, .managerSetMicrophone d])

/-- The updateVideoDevices refresh: dispatch the enumerated camera
list; then, when nothing is selected, dispatch setVideoDeviceInfo with
cameraList[0] without checking the list is non-empty (on an empty list
the payload is undefined, rendered as List.head?); when the selected
camera is absent from the list, dispatch the same device again. -/
def updateVideoDevices (cameraList : List DeviceInfo) (s : DevicesState) :
    DevicesState × List DeviceEffect :=
  match s.videoDeviceInfo with
  | none =>
    ({ s with videoDeviceList := cameraList, videoDeviceInfo := cameraList.head? },
     [.dispatchSetVideoDeviceList cameraList,
      .dispatchSetVideoDeviceInfo cameraList.head?])
  | some d =>
    if isSelectedVideoDeviceInList d cameraList then
      ({ s with videoDeviceList := cameraList },
       [.dispatchSetVideoDeviceList cameraList])
    else
      ({ s with videoDeviceList := cameraList },
       [.dispatchSetVideoDeviceList cameraList,
        .dispatchSetVideoDeviceInfo (some d)])

/-! ## Client file download (getFile thunk) -/

/-- Outcome of the awaited fetch inside getFile. -/
inductive FetchResult where
  | success
  | rejects
deriving DecidableEq, Repr

/-- Observable events of the getFile thunk, in execution order. -/
inductive FileEvent where
  | dispatchSetFileIsDownloading (fileId : String) (b : Bool)
  | fetchFileStart (fileId : String)
  | dispatchSetFileBlobUrl (fileId : String)
deriving DecidableEq, Repr

/-- The files subtree of the store: per-file downloading flags,
most-recent write first.  The setFileIsDownloading reducer (not part
of the sources) is modelled from the spec as writing the flag. -/
structure FilesState where
  downloadingFlags : List (String × Bool)
deriving DecidableEq, Repr

/-- Write the downloading flag of one file. -/
def setFileIsDownloading (fileId : String) (b : Bool) (fs : FilesState) :
    FilesState :=
  { downloadingFlags := (fileId, b) :: fs.downloadingFlags }

/-- Read the downloading flag of one file (false when never set). -/
def isFileDownloading (fileId : String) (fs : FilesState) : Bool :=
  (((fs.downloadingFlags.filter (fun p => p.1 == fileId)).head?).map
    (fun p => p.2)).getD false

/-- The getFile thunk: abort when userId is undefined; otherwise
dispatch setFileIsDownloading true, start the fetch, and - only when
the fetch resolves - dispatch the blob URL and setFileIsDownloading
false.  A rejected fetch propagates out of the async function, so no
later dispatch runs. -/
def getFile (fileId : String) (userId : Option String) (fetch : FetchResult)
    (fs : FilesState) : FilesState × List FileEvent :=
  match userId with
  | none => (fs, [])
  | some _ =>
    let fs1 := setFileIsDownloading fileId true fs
    match fetch with
    | .rejects =>
      (fs1, [.dispatchSetFileIsDownloading fileId true, .fetchFileStart fileId])
    | .success =>
      (setFileIsDownloading fileId false fs1,
       [.dispatchSetFileIsDownloading fileId true, .fetchFileStart fileId,
        .dispatchSetFileBlobUrl fileId,
        .dispatchSetFileIsDownloading fileId false])

/-! ## Concrete fixtures used by witnesses -/

/-- A store with one registered member of group g and no files. -/
def stMember : Storage :=
  { blobs := [], fileMetadataTable := [],
    userDetailsTable := [(("g"), ("user1"))] }

/-- A store whose only membership entry is for another group h, so
group g has zero registered members. -/
def stEmptyGroup : Storage :=
  { blobs := [], fileMetadataTable := [],
    userDetailsTable := [(("h"), ("user2"))] }

/-- A store with one member of g, one metadata row and its blob. -/
def stOneFile : Storage :=
  { blobs := [(("fid1"), [7, 8, 9])],
    fileMetadataTable :=
      [(("g"), { id := ("fid1"), name := ("a.png"), uploadDateTime := 5 })],
    userDetailsTable := [(("g"), ("user1"))] }

/-- A store with one member of g and two metadata rows, the older one
listed first. -/
def stTwoFiles : Storage :=
  { blobs := [],
    fileMetadataTable :=
      [(("g"), { id := ("fid1"), name := ("a.png"), uploadDateTime := 5 }),
       (("g"), { id := ("fid2"), name := ("b.png"), uploadDateTime := 9 })],
    userDetailsTable := [(("g"), ("user1"))] }

/-- A well-formed upload request carrying a raw file and a name. -/
def reqFileAndName : UploadRequest :=
  { file := some [1, 2, 3], image := none, fileName := some ("a.bin") }

/-- An upload request carrying a raw file but no file name. -/
def reqFileNoName : UploadRequest :=
  { file := some [1, 2, 3], image := none, fileName := none }

/-- An empty upload request. -/
def reqEmpty : UploadRequest :=
  { file := none, image := none, fileName := none }

/-- A two-event sequence: an outgoing call is added, then an incoming
call arrives while the first is tracked. -/
def addedTwoCalls : List CallInfo :=
  [{ callId := 0, isIncoming := false }, { callId := 1, isIncoming := true }]

/-- A toggle context with an active call and both flags off. -/
def ctxActiveCall : ToggleContext :=
  { callActive := true, controls := { mic := false, shareScreen := false } }

/-- A devices subtree with nothing selected and empty lists. -/
def devicesUnset : DevicesState :=
  { audioDeviceInfo := none, audioDeviceList := [],
    videoDeviceInfo := none, videoDeviceList := [] }

/-- A devices subtree with microphone 7 selected. -/
def devicesMicSelected : DevicesState :=
  { audioDeviceInfo := some { deviceId := 7 }, audioDeviceList := [{ deviceId := 7 }],
    videoDeviceInfo := none, videoDeviceList := [] }

/-- A files subtree with no downloading flag recorded. -/
def filesEmpty : FilesState := { downloadingFlags := [] }

/-! ## Helper lemmas -/

/-- In a group with no user-detail entry at all, getUserDetails is
empty for every caller. -/
theorem getUserDetails_eq_nil_of_empty_group (gid uid : String) (st : Storage)
    (h : ∀ p ∈ st.userDetailsTable, p.1 ≠ gid) :
    getUserDetails gid uid st = [] := by
  unfold getUserDetails
  rw [List.filter_eq_nil_iff]
  intro p hp
  simp [h p hp]

/-! ## Claims about the backend file routes -/

/-- Claim C3: for every group with zero registered members (no
user-detail entry for the group), each of list, download and upload
responds 403 and performs no storage write, for every caller admitted
by the Authorization middleware. -/
theorem empty_group_file_ops_403 (gid : String) (auth : Option String)
    (uid fid newId : String) (req : UploadRequest) (now : Nat) (st : Storage)
    (hauth : fakeAuthMiddleware auth = some uid)
    (hempty : ∀ p ∈ st.userDetailsTable, p.1 ≠ gid) :
    getFilesRoute gid uid st = ({ status := 403, body := .empty }, st) ∧
    downloadFileRoute gid uid fid st = ({ status := 403, body := .empty }, st) ∧
    uploadFileRoute gid uid req newId now st =
      ({ status := 403, body := .empty }, st) := by
  have h0 : getUserDetails gid uid st = [] :=
    getUserDetails_eq_nil_of_empty_group gid uid st hempty
  refine ⟨?_, ?_, ?_⟩ <;>
    simp [getFilesRoute, downloadFileRoute, uploadFileRoute, h0]

/-- Witness for claim C3 at a concrete store and caller. -/
theorem empty_group_file_ops_403_witness :
    fakeAuthMiddleware (some ("user1")) = some ("user1") ∧
    (∀ p ∈ stEmptyGroup.userDetailsTable, p.1 ≠ ("g")) ∧
    (getFilesRoute ("g") ("user1") stEmptyGroup =
        ({ status := 403, body := .empty }, stEmptyGroup) ∧
     downloadFileRoute ("g") ("user1") ("fid1") stEmptyGroup =
        ({ status := 403, body := .empty }, stEmptyGroup) ∧
     uploadFileRoute ("g") ("user1") reqEmpty ("fid1") 0 stEmptyGroup =
        ({ status := 403, body := .empty }, stEmptyGroup)) :=
  ⟨by decide, by decide,
   empty_group_file_ops_403 ("g") (some ("user1")) ("user1") ("fid1") ("fid1")
     reqEmpty 0 stEmptyGroup (by decide) (by decide)⟩

/-- Claim C4: for a member request, a download of an id with no
metadata responds 404 (the FileServiceError is caught, never rethrown),
and a download of an id whose metadata and blob exist responds 200 with
the blob bytes and the originally uploaded file name as attachment. -/
theorem download_route_404_or_200 (gid uid fid : String) (st : Storage)
    (hmem : (getUserDetails gid uid st).length ≠ 0) :
    (getFileMetadata gid fid st = none →
      downloadFileRoute gid uid fid st =
        ({ status := 404, body := .empty }, st)) ∧
    (∀ m b, getFileMetadata gid fid st = some m → downloadFile fid st = some b →
      downloadFileRoute gid uid fid st =
        ({ status := 200, body := .bytes b, attachmentName := some m.name }, st)) := by
  constructor
  · intro hnone
    simp [downloadFileRoute, hmem, hnone]
  · intro m b hm hb
    simp [downloadFileRoute, hmem, hm, hb]

/-- Witness for claim C4 at a concrete store. -/
theorem download_route_404_or_200_witness :
    (getUserDetails ("g") ("user1") stOneFile).length ≠ 0 ∧
    ((getFileMetadata ("g") ("fid2") stOneFile = none →
       downloadFileRoute ("g") ("user1") ("fid2") stOneFile =
         ({ status := 404, body := .empty }, stOneFile)) ∧
     (∀ m b, getFileMetadata ("g") ("fid2") stOneFile = some m →
       downloadFile ("fid2") stOneFile = some b →
       downloadFileRoute ("g") ("user1") ("fid2") stOneFile =
         ({ status := 200, body := .bytes b, attachmentName := some m.name },
          stOneFile))) :=
  ⟨by decide,
   download_route_404_or_200 ("g") ("user1") ("fid2") stOneFile (by decide)⟩

/-- Claim C6: for a member request, the list route responds 200 with
the group metadata sorted by upload time descending: any entry at an
earlier position has an upload time at least that of any entry at a
later position. -/
theorem list_route_sorted_desc (gid uid : String) (st : Storage)
    (hmem : (getUserDetails gid uid st).length ≠ 0) :
    (getFilesRoute gid uid st).1 =
      { status := 200,
        body := .metadataList (sortFilesDesc (getFilesForGroup gid st)) } ∧
    ∀ (i j : Fin (sortFilesDesc (getFilesForGroup gid st)).length), i < j →
      ((sortFilesDesc (getFilesForGroup gid st)).get j).uploadDateTime ≤
      ((sortFilesDesc (getFilesForGroup gid st)).get i).uploadDateTime := by
  constructor
  · simp [getFilesRoute, hmem]
  · intro i j hij
    exact (List.sorted_insertionSort laterOrSameUpload
      (getFilesForGroup gid st)).rel_get_of_lt hij

/-- Witness for claim C6 at a concrete store with two files. -/
theorem list_route_sorted_desc_witness :
    (getUserDetails ("g") ("user1") stTwoFiles).length ≠ 0 ∧
    ((getFilesRoute ("g") ("user1") stTwoFiles).1 =
      { status := 200,
        body := .metadataList
          (sortFilesDesc (getFilesForGroup ("g") stTwoFiles)) } ∧
     ∀ (i j : Fin (sortFilesDesc (getFilesForGroup ("g") stTwoFiles)).length),
       i < j →
       ((sortFilesDesc (getFilesForGroup ("g") stTwoFiles)).get j).uploadDateTime ≤
       ((sortFilesDesc (getFilesForGroup ("g") stTwoFiles)).get i).uploadDateTime) :=
  ⟨by decide, list_route_sorted_desc ("g") ("user1") stTwoFiles (by decide)⟩

/-- Claim C2: a successful upload stores either the raw multipart
buffer or the base64-decoded image body under the freshly assigned id,
and a member download of that id in the resulting store returns exactly
those bytes (with the uploaded name as attachment). -/
theorem upload_download_roundtrip (gid uid uid2 : String) (req : UploadRequest)
    (fid : String) (now : Nat) (st : Storage)
    (hmem2 : (getUserDetails gid uid2 st).length ≠ 0)
    (hok : (uploadFileRoute gid uid req fid now st).1.status = 204) :
    (downloadFileRoute gid uid2 fid (uploadFileRoute gid uid req fid now st).2).1 =
      { status := 200, body := .bytes (submittedBytes req),
        attachmentName := some (req.fileName.getD ("")) } := by
  unfold uploadFileRoute at hok ⊢
  by_cases h1 : (getUserDetails gid uid st).length = 0
  · simp [h1] at hok
  · rw [if_neg h1] at hok ⊢
    by_cases h2 : (req.file.isNone && req.image.isNone) = true
    · simp [h2] at hok
    · rw [if_neg h2] at hok ⊢
      by_cases h3 : req.fileName.isNone = true
      · simp [h3] at hok
      · rw [if_neg h3]
        have hmeta : getFileMetadata gid fid
            (addFileMetadata gid
              { id := fid, name := req.fileName.getD (""), uploadDateTime := now }
              (uploadFile fid (submittedBytes req) st)) =
            some { id := fid, name := req.fileName.getD (""),
                   uploadDateTime := now } := by
          simp [getFileMetadata, addFileMetadata, uploadFile]
        have hblob : downloadFile fid
            (addFileMetadata gid
              { id := fid, name := req.fileName.getD (""), uploadDateTime := now }
              (uploadFile fid (submittedBytes req) st)) =
            some (submittedBytes req) := by
          simp [downloadFile, addFileMetadata, uploadFile]
        have hmem2b : (getUserDetails gid uid2
            (addFileMetadata gid
              { id := fid, name := req.fileName.getD (""), uploadDateTime := now }
              (uploadFile fid (submittedBytes req) st))).length ≠ 0 := hmem2
        simp [downloadFileRoute, hmem2b, hmeta, hblob]

/-- Witness for claim C2: upload a three-byte file into a one-member
store, then download it back. -/
theorem upload_download_roundtrip_witness :
    (getUserDetails ("g") ("user1") stMember).length ≠ 0 ∧
    (uploadFileRoute ("g") ("user1") reqFileAndName ("fid1") 42 stMember).1.status = 204 ∧
    (downloadFileRoute ("g") ("user1") ("fid1")
        (uploadFileRoute ("g") ("user1") reqFileAndName ("fid1") 42 stMember).2).1 =
      { status := 200, body := .bytes (submittedBytes reqFileAndName),
        attachmentName := some (reqFileAndName.fileName.getD ("")) } :=
  ⟨by decide, by decide,
   upload_download_roundtrip ("g") ("user1") ("user1") reqFileAndName ("fid1") 42
     stMember (by decide) (by decide)⟩

/-- Counterexample to claim C5 as stated: a member request that
supplies a raw multipart file but no fileName is, per the claim, not a
400 case (a file is supplied), yet the route responds 400, not 204. -/
theorem upload_file_without_name_is_400 :
    (uploadFileRoute ("g") ("user1") reqFileNoName ("fid1") 0 stMember).1.status = 400 ∧
    (uploadFileRoute ("g") ("user1") reqFileNoName ("fid1") 0 stMember).1.status ≠ 204 := by
  constructor <;> decide

/-- Claim C5 as amended: for a member request, the upload route
responds 400 exactly when no file and no image is supplied or when no
fileName is supplied, and responds 204 exactly otherwise; a raw file
alone is not sufficient — a fileName must accompany it. -/
theorem upload_status_characterization (gid uid : String) (req : UploadRequest)
    (newId : String) (now : Nat) (st : Storage)
    (hmem : (getUserDetails gid uid st).length ≠ 0) :
    ((uploadFileRoute gid uid req newId now st).1.status = 400 ↔
      ((req.file = none ∧ req.image = none) ∨ req.fileName = none)) ∧
    ((uploadFileRoute gid uid req newId now st).1.status = 204 ↔
      ¬((req.file = none ∧ req.image = none) ∨ req.fileName = none)) := by
  obtain ⟨f, i, n⟩ := req
  cases f <;> cases i <;> cases n <;>
    simp [uploadFileRoute, hmem]

/-- Witness for the amended claim C5 at a concrete member store. -/
theorem upload_status_characterization_witness :
    (getUserDetails ("g") ("user1") stMember).length ≠ 0 ∧
    (((uploadFileRoute ("g") ("user1") reqFileNoName ("fid1") 0 stMember).1.status = 400 ↔
       ((reqFileNoName.file = none ∧ reqFileNoName.image = none) ∨
        reqFileNoName.fileName = none)) ∧
     ((uploadFileRoute ("g") ("user1") reqFileNoName ("fid1") 0 stMember).1.status = 204 ↔
       ¬((reqFileNoName.file = none ∧ reqFileNoName.image = none) ∨
         reqFileNoName.fileName = none))) :=
  ⟨by decide,
   upload_status_characterization ("g") ("user1") reqFileNoName ("fid1") 0
     stMember (by decide)⟩

/-! ## Claims about the client call-session synchronizer -/

/-- Claim C1: along any sequence of call-added events, at most one call
is ever tracked in store state (at every prefix), and at any step where
a call is already tracked and the arriving call is incoming, the
handler only rejects the arriving call: its effects contain no
dispatch, and the store state is unchanged, so the call never enters
state. -/
theorem single_call_tracked (added : List CallInfo) (i : Nat)
    (h : i < added.length)
    (hact : (runCallsAdded initCallsState (added.take i)).call.isSome = true)
    (hinc : (added.get ⟨i, h⟩).isIncoming = true) :
    (∀ k : Nat,
      (trackedCalls (runCallsAdded initCallsState (added.take k))).length ≤ 1) ∧
    onCallAdded (runCallsAdded initCallsState (added.take i)) (added.get ⟨i, h⟩) =
      (runCallsAdded initCallsState (added.take i),
       [.rejectCall (added.get ⟨i, h⟩)]) := by
  constructor
  · intro k
    cases hcall : (runCallsAdded initCallsState (added.take k)).call <;>
      simp [trackedCalls, hcall]
  · simp only [List.get_eq_getElem] at hinc
    unfold onCallAdded
    rw [if_pos]
    simp [hact, hinc]

/-- Witness for claim C1: an outgoing call is tracked, then an incoming
call arrives and is rejected without any dispatch. -/
theorem single_call_tracked_witness :
    (runCallsAdded initCallsState (addedTwoCalls.take 1)).call.isSome = true ∧
    (addedTwoCalls.get ⟨1, by decide⟩).isIncoming = true ∧
    ((∀ k : Nat,
       (trackedCalls (runCallsAdded initCallsState (addedTwoCalls.take k))).length ≤ 1) ∧
     onCallAdded (runCallsAdded initCallsState (addedTwoCalls.take 1))
         (addedTwoCalls.get ⟨1, by decide⟩) =
       (runCallsAdded initCallsState (addedTwoCalls.take 1),
        [.rejectCall (addedTwoCalls.get ⟨1, by decide⟩)])) :=
  ⟨by decide, by decide,
   single_call_tracked addedTwoCalls 1 (by decide) (by decide) (by decide)⟩

/-! ## Claims about the mute / screen-share toggles -/

/-- Claim C7: for both toggles, a rejected SDK action leaves the store
flag unchanged and dispatches nothing, and a resolved SDK action yields
a trace in which the store dispatch comes strictly after the SDK
action — the flag is never updated optimistically before. -/
theorem toggles_update_only_after_resolve (mic shareScreen : Bool)
    (s : ToggleContext) :
    ((setMicrophone mic .rejects s).1 = s.controls ∧
     ∀ b, ToggleEvent.dispatchSetMic b ∉ (setMicrophone mic .rejects s).2) ∧
    ((setShareUnshareScreen shareScreen .rejects s).1 = s.controls ∧
     ∀ b, ToggleEvent.dispatchSetShareScreen b ∉
       (setShareUnshareScreen shareScreen .rejects s).2) ∧
    (s.callActive = true →
      (setMicrophone mic .resolves s).2 =
        [(if !s.controls.mic then ToggleEvent.sdkUnmute else ToggleEvent.sdkMute),
         .dispatchSetMic mic] ∧
      (setMicrophone mic .resolves s).1.mic = mic) ∧
    (s.callActive = true →
      (setShareUnshareScreen shareScreen .resolves s).2 =
        [(if !s.controls.shareScreen then ToggleEvent.sdkStartScreenSharing
          else ToggleEvent.sdkStopScreenSharing),
         .dispatchSetShareScreen shareScreen] ∧
      (setShareUnshareScreen shareScreen .resolves s).1.shareScreen = shareScreen) := by
  obtain ⟨ca, m, ss⟩ := s
  cases ca <;> cases m <;> cases ss <;>
    simp [setMicrophone, setShareUnshareScreen]

/-- Witness for claim C7 in a context with an active call. -/
theorem toggles_update_only_after_resolve_witness :
    ctxActiveCall.callActive = true ∧
    (((setMicrophone true .rejects ctxActiveCall).1 = ctxActiveCall.controls ∧
      ∀ b, ToggleEvent.dispatchSetMic b ∉ (setMicrophone true .rejects ctxActiveCall).2) ∧
     ((setShareUnshareScreen true .rejects ctxActiveCall).1 = ctxActiveCall.controls ∧
      ∀ b, ToggleEvent.dispatchSetShareScreen b ∉
        (setShareUnshareScreen true .rejects ctxActiveCall).2) ∧
     (ctxActiveCall.callActive = true →
       (setMicrophone true .resolves ctxActiveCall).2 =
         [(if !ctxActiveCall.controls.mic then ToggleEvent.sdkUnmute
           else ToggleEvent.sdkMute),
          .dispatchSetMic true] ∧
       (setMicrophone true .resolves ctxActiveCall).1.mic = true) ∧
     (ctxActiveCall.callActive = true →
       (setShareUnshareScreen true .resolves ctxActiveCall).2 =
         [(if !ctxActiveCall.controls.shareScreen then ToggleEvent.sdkStartScreenSharing
           else ToggleEvent.sdkStopScreenSharing),
          .dispatchSetShareScreen true] ∧
       (setShareUnshareScreen true .resolves ctxActiveCall).1.shareScreen = true)) :=
  ⟨by decide, toggles_update_only_after_resolve true true ctxActiveCall⟩

/-! ## Claims about the device refresh paths -/

/-- Claim C8: on an audio refresh with nothing selected and a non-empty
list, the first enumerated microphone becomes selected with exactly one
selection dispatch; with a selected microphone absent from the new
list, that same device is re-applied to the device manager, the
selection is neither cleared nor replaced, and no selection dispatch
occurs. -/
theorem audio_device_selection (microphoneList : List DeviceInfo)
    (s : DevicesState) :
    (∀ d rest, s.audioDeviceInfo = none → microphoneList = d :: rest →
      (updateAudioDevices microphoneList s).1.audioDeviceInfo = some d ∧
      (updateAudioDevices microphoneList s).2 =
        [.dispatchSetAudioDeviceList (d :: rest),
         .dispatchSetAudioDeviceInfo (some d),
         .managerSetMicrophone d] ∧
      (updateAudioDevices microphoneList s).2.countP isAudioInfoDispatch = 1) ∧
    (∀ d, s.audioDeviceInfo = some d → d ∉ microphoneList →
      (updateAudioDevices microphoneList s).1.audioDeviceInfo = some d ∧
      (updateAudioDevices microphoneList s).2 =
        [.dispatchSetAudioDeviceList microphoneList, .managerSetMicrophone d] ∧
      (updateAudioDevices microphoneList s).2.countP isAudioInfoDispatch = 0) := by
  constructor
  · intro d rest hnone hlist
    subst hlist
    simp [updateAudioDevices, hnone, isAudioInfoDispatch, List.countP_cons]
  · intro d hsel hnotin
    simp [updateAudioDevices, hsel, isSelectedAudioDeviceInList, hnotin,
      isAudioInfoDispatch, List.countP_cons]

/-- Witness for claim C8: a refresh with nothing selected and one
microphone, and a refresh where the selected microphone disappeared. -/
theorem audio_device_selection_witness :
    devicesUnset.audioDeviceInfo = none ∧
    devicesMicSelected.audioDeviceInfo = some { deviceId := 7 } ∧
    ({ deviceId := 7 } : DeviceInfo) ∉ ([] : List DeviceInfo) ∧
    ((updateAudioDevices [{ deviceId := 3 }] devicesUnset).1.audioDeviceInfo =
        some { deviceId := 3 } ∧
     (updateAudioDevices [{ deviceId := 3 }] devicesUnset).2 =
        [.dispatchSetAudioDeviceList [{ deviceId := 3 }],
         .dispatchSetAudioDeviceInfo (some { deviceId := 3 }),
         .managerSetMicrophone { deviceId := 3 }] ∧
     (updateAudioDevices [{ deviceId := 3 }] devicesUnset).2.countP
        isAudioInfoDispatch = 1) ∧
    ((updateAudioDevices [] devicesMicSelected).1.audioDeviceInfo =
        some { deviceId := 7 } ∧
     (updateAudioDevices [] devicesMicSelected).2 =
        [.dispatchSetAudioDeviceList [], .managerSetMicrophone { deviceId := 7 }] ∧
     (updateAudioDevices [] devicesMicSelected).2.countP isAudioInfoDispatch = 0) :=
  ⟨by decide, by decide, by decide,
   (audio_device_selection [{ deviceId := 3 }] devicesUnset).1 { deviceId := 3 } []
     (by decide) (by decide),
   (audio_device_selection [] devicesMicSelected).2 { deviceId := 7 }
     (by decide) (by decide)⟩

/-- Claim C9: on a video refresh with nothing selected, the first
element of the camera list is dispatched with no emptiness check, so on
an empty list a selection dispatch carrying undefined occurs and the
selected video device ends up undefined — unlike the audio path, which
emits no selection dispatch on an empty list. -/
theorem video_device_empty_list_dispatch (cameraList : List DeviceInfo)
    (s : DevicesState) :
    (s.videoDeviceInfo = none →
      (updateVideoDevices cameraList s).2 =
        [.dispatchSetVideoDeviceList cameraList,
         .dispatchSetVideoDeviceInfo cameraList.head?] ∧
      (updateVideoDevices cameraList s).1.videoDeviceInfo = cameraList.head?) ∧
    (s.videoDeviceInfo = none → cameraList = [] →
      ((updateVideoDevices cameraList s).2.countP isVideoInfoDispatch = 1 ∧
       DeviceEffect.dispatchSetVideoDeviceInfo none ∈
         (updateVideoDevices cameraList s).2 ∧
       (updateVideoDevices cameraList s).1.videoDeviceInfo = none)) ∧
    (s.audioDeviceInfo = none →
      (updateAudioDevices ([]) s).2.countP isAudioInfoDispatch = 0) := by
  refine ⟨?_, ?_, ?_⟩
  · intro hnone
    simp [updateVideoDevices, hnone]
  · intro hnone hempty
    subst hempty
    simp [updateVideoDevices, hnone, isVideoInfoDispatch, List.countP_cons]
  · intro hnone
    simp [updateAudioDevices, hnone, isAudioInfoDispatch, List.countP_cons]

/-- Witness for claim C9: an empty camera refresh with no selection. -/
theorem video_device_empty_list_dispatch_witness :
    devicesUnset.videoDeviceInfo = none ∧
    devicesUnset.audioDeviceInfo = none ∧
    (((updateVideoDevices [] devicesUnset).2.countP isVideoInfoDispatch = 1 ∧
      DeviceEffect.dispatchSetVideoDeviceInfo none ∈
        (updateVideoDevices [] devicesUnset).2 ∧
      (updateVideoDevices [] devicesUnset).1.videoDeviceInfo = none) ∧
     (updateAudioDevices ([]) devicesUnset).2.countP isAudioInfoDispatch = 0) :=
  ⟨by decide, by decide,
   (video_device_empty_list_dispatch [] devicesUnset).2.1 (by decide) (by decide),
   (video_device_empty_list_dispatch [] devicesUnset).2.2 (by decide)⟩

/-! ## Claims about the client file download -/

/-- Claim C10: with a defined userId, getFile dispatches the
downloading flag to true strictly before the fetch starts; when the
fetch rejects, no later dispatch runs, so the file remains marked as
downloading and no false dispatch ever appears; when the fetch
resolves, the blob URL dispatch and the false dispatch follow the
fetch, and the flag ends false. -/
theorem getFile_downloading_flag (fileId u : String) (fetch : FetchResult)
    (fs : FilesState) :
    (getFile fileId (some u) fetch fs).2.take 2 =
      [.dispatchSetFileIsDownloading fileId true, .fetchFileStart fileId] ∧
    (fetch = .rejects →
      isFileDownloading fileId (getFile fileId (some u) .rejects fs).1 = true ∧
      FileEvent.dispatchSetFileIsDownloading fileId false ∉
        (getFile fileId (some u) .rejects fs).2) ∧
    (fetch = .success →
      (getFile fileId (some u) .success fs).2 =
        [.dispatchSetFileIsDownloading fileId true, .fetchFileStart fileId,
         .dispatchSetFileBlobUrl fileId,
         .dispatchSetFileIsDownloading fileId false] ∧
      isFileDownloading fileId (getFile fileId (some u) .success fs).1 = false) := by
  cases fetch <;>
    simp [getFile, isFileDownloading, setFileIsDownloading]

/-- Witness for claim C10: a rejected fetch leaves the file marked as
downloading forever. -/
theorem getFile_downloading_flag_witness :
    ((getFile ("fid1") (some ("user1")) .rejects filesEmpty).2.take 2 =
      [.dispatchSetFileIsDownloading ("fid1") true, .fetchFileStart ("fid1")] ∧
     (FetchResult.rejects = .rejects →
       isFileDownloading ("fid1")
         (getFile ("fid1") (some ("user1")) .rejects filesEmpty).1 = true ∧
       FileEvent.dispatchSetFileIsDownloading ("fid1") false ∉
         (getFile ("fid1") (some ("user1")) .rejects filesEmpty).2) ∧
     (FetchResult.rejects = .success →
       (getFile ("fid1") (some ("user1")) .success filesEmpty).2 =
         [.dispatchSetFileIsDownloading ("fid1") true, .fetchFileStart ("fid1"),
          .dispatchSetFileBlobUrl ("fid1"),
          .dispatchSetFileIsDownloading ("fid1") false] ∧
       isFileDownloading ("fid1")
         (getFile ("fid1") (some ("user1")) .success filesEmpty).1 = false)) :=
  getFile_downloading_flag ("fid1") ("user1") .rejects filesEmpty

end CallingHero
